import Mathlib

/-!
Verification development for the `render` package of the go-tiled map
renderer (files `renderer.go` and `hexagonal.go`).  The Go code is shallowly
embedded: machine integers (`int`) become `Int` with Go's truncated division
and modulus, `uint32` arithmetic is `Nat` arithmetic modulo `2 ^ 32`, slices
become lists, the mutable `Renderer` becomes explicit state passing, and
fallible operations return an outcome type distinguishing returned errors
from run-time panics.  External collaborators (image decoding, the imaging
library, the standard draw package, the map-model helpers of the go-tiled
parent package) are modelled from the spec's black-box contracts.
-/

set_option autoImplicit false

namespace TiledRender

/-- Go's `/` on `int`: truncated division (rounds toward zero). -/
def goDiv (a b : Int) : Int := Int.tdiv a b

/-- Go's `%` on `int`: truncated remainder (takes the dividend's sign). -/
def goMod (a b : Int) : Int := Int.tmod a b

/-- Go's conversion `uint32(x)` of an `int` value: the low 32 bits. -/
def u32 (x : Int) : Nat := (x % (2 ^ 32)).toNat

/-- `uint32` addition of a tileset's first GID and a local tile id, as used
for tile-cache keys (`FirstGID + tile.ID`); wraps modulo `2 ^ 32`. -/
def gidKey (a b : Nat) : Nat := (a + b) % (2 ^ 32)

/-- Model of Go's `image.Rectangle`: min and max corner coordinates. -/
structure Rectangle where
  minX : Int
  minY : Int
  maxX : Int
  maxY : Int
deriving DecidableEq

/-- The zero value `image.Rectangle{}` (the empty rectangle). -/
def emptyRectangle : Rectangle := ⟨0, 0, 0, 0⟩

/-- Go's `image.Rect(x0, y0, x1, y1)`: builds a rectangle, swapping the
coordinates of an axis when they are given in decreasing order. -/
def imageRect (x0 y0 x1 y1 : Int) : Rectangle :=
  let p := if x0 > x1 then (x1, x0) else (x0, x1)
  let q := if y0 > y1 then (y1, y0) else (y0, y1)
  ⟨p.1, q.1, p.2, q.2⟩

/-- `Rectangle.Dx`: the width of a rectangle. -/
def Rectangle.dx (r : Rectangle) : Int := r.maxX - r.minX

/-- `Rectangle.Dy`: the height of a rectangle. -/
def Rectangle.dy (r : Rectangle) : Int := r.maxY - r.minY

/-- Model of a decoded raster image (`image.Image` / `*image.NRGBA`):
pixel dimensions together with a pixel function.  The colour model is
abstracted to a single code per pixel; codec details are the external image
I/O collaborator's black box. -/
structure Image where
  width : Int
  height : Int
  pix : Int → Int → Nat

/-- Modelled from the spec: the imaging library's horizontal mirror
(`imaging.FlipH`), an external collaborator. -/
def flipH (img : Image) : Image :=
  { img with pix := fun x y => img.pix (img.width - 1 - x) y }

/-- Modelled from the spec: the imaging library's vertical mirror
(`imaging.FlipV`), an external collaborator. -/
def flipV (img : Image) : Image :=
  { img with pix := fun x y => img.pix x (img.height - 1 - y) }

/-- Modelled from the spec: the imaging library's 90-degree
counter-clockwise rotation (`imaging.Rotate90`), an external collaborator;
the pixel dimensions swap. -/
def rotate90 (img : Image) : Image :=
  { width := img.height
    height := img.width
    pix := fun x y => img.pix (img.width - 1 - y) x }

/-- Modelled from the spec: the imaging library's sub-image extraction
(`imaging.Crop`), an external collaborator: the region of the source image
under the given rectangle. -/
def crop (img : Image) (r : Rectangle) : Image :=
  { width := r.dx
    height := r.dy
    pix := fun x y => img.pix (r.minX + x) (r.minY + y) }

/-- Does the point lie inside the rectangle (min inclusive, max exclusive)? -/
def inRect (r : Rectangle) (x y : Int) : Bool :=
  decide (r.minX ≤ x ∧ x < r.maxX ∧ r.minY ≤ y ∧ y < r.maxY)

/-- Modelled from the spec: the standard draw package's over-compositing
(`draw.Draw` with `draw.Over`), an external collaborator: source pixels are
placed into the destination inside the destination rectangle, aligned to its
minimum corner; blending arithmetic is the collaborator's black box. -/
def drawOver (dst : Image) (pos : Rectangle) (src : Image) : Image :=
  { dst with pix := fun x y =>
      if inRect pos x y then src.pix (x - pos.minX) (y - pos.minY)
      else dst.pix x y }

/-- Modelled from the spec: `draw.DrawMask` with a uniform alpha mask of
`opacity * 255`, used when a layer's opacity is below one; the float64
opacity is modelled by an exact rational.  A fully transparent mask leaves
the destination unchanged; blending arithmetic is the collaborator's
black box. -/
def drawMask (dst : Image) (pos : Rectangle) (src : Image) (alpha : Rat) : Image :=
  { dst with pix := fun x y =>
      if inRect pos x y ∧ 0 < alpha then src.pix (x - pos.minX) (y - pos.minY)
      else dst.pix x y }

/-- A fresh output buffer: `image.NewNRGBA(rect)`, all pixels zero
(transparent). -/
def newNRGBA (r : Rectangle) : Image :=
  { width := r.dx, height := r.dy, pix := fun _ _ => 0 }

/-- Stagger-axis tag `tiled.AxisX` of the external map model: the string
`"x"`. -/
def AxisX : String := "x"

/-- Stagger-axis tag `tiled.AxisY` of the external map model: the string
`"y"`. -/
def AxisY : String := "y"

/-- One entry of a tileset's collection of per-tile discrete images
(`tiled.TilesetTile`): a local id and the source path of its image. -/
structure TilesetTile where
  id : Nat
  imageSource : String

/-- Model of `tiled.Tileset` (external map model, consumed read-only):
first global id, tile count, per-tile discrete images, optional shared
atlas image source, and the parser-provided path and atlas-slicing data. -/
structure Tileset where
  firstGID : Nat
  tileCount : Int
  tiles : List TilesetTile
  /-- `Tileset.Image.Source` when the tileset stores one shared atlas,
  `none` when it stores per-tile discrete images. -/
  image : Option String
  /-- Base directory used by the external path-join helper. -/
  baseDir : String
  /-- Modelled from the spec: `Tileset.GetTileRect` of the external map
  model — the computed sub-rectangle of the atlas for a tile index; its
  slicing arithmetic belongs to the parsing collaborator, so it is carried
  as data of the tileset. -/
  tileRect : Nat → Rectangle

/-- Modelled from the spec: `Tileset.GetFileFullPath` of the external map
model — resolves a tile image source path relative to the map. -/
def getFileFullPath (t : Tileset) (s : String) : String := t.baseDir ++ s

/-- Model of `tiled.LayerTile`: tileset reference, local id, the three flip
flags, and the sentinel nil state. -/
structure LayerTile where
  tileset : Tileset
  id : Nat
  horizontalFlip : Bool
  verticalFlip : Bool
  diagonalFlip : Bool
  isNil : Bool

/-- Model of `tiled.Layer`: a row-major flat sequence of tiles, an opacity
(float64 modelled as an exact rational) and a visibility flag. -/
structure Layer where
  tiles : List LayerTile
  opacity : Rat
  visible : Bool

/-- Model of `tiled.Group`: a nested ordered sequence of layers. -/
structure Group where
  layers : List Layer

/-- Model of `tiled.Map` (external map model, consumed read-only). -/
structure Map where
  width : Int
  height : Int
  tileWidth : Int
  tileHeight : Int
  hexSideLength : Int
  orientation : String
  renderOrder : String
  staggerAxis : String
  layers : List Layer
  groups : List Group

/-- The viewport `Bounds` of `renderer.go`: offsets and limits in tile
units. -/
structure Bounds where
  offsetX : Int
  offsetY : Int
  limitX : Int
  limitY : Int
deriving DecidableEq

/-- `Bounds.SetLimit`: each axis is updated only when the requested value
is at least 1. -/
def Bounds.SetLimit (b : Bounds) (x y : Int) : Bounds :=
  let b1 := if x ≥ 1 then { b with limitX := x } else b
  if y ≥ 1 then { b1 with limitY := y } else b1

/-- `Bounds.AddOffset`: adds to each offset and clamps negative results
to zero. -/
def Bounds.AddOffset (b : Bounds) (x y : Int) : Bounds :=
  let ox := b.offsetX + x
  let ox := if ox < 0 then 0 else ox
  let oy := b.offsetY + y
  let oy := if oy < 0 then 0 else oy
  { b with offsetX := ox, offsetY := oy }

/-- `HexagonalRendererEngine.GetFinalImageSize` (hexagonal.go). -/
def hexGetFinalImageSize (m : Map) (b : Bounds) : Rectangle :=
  if m.staggerAxis = AxisX then
    let addon := goDiv (m.tileWidth - m.hexSideLength) 2
    imageRect 0 0 (b.limitX * (m.tileWidth - addon) + addon)
      (b.limitY * m.tileHeight + goDiv m.tileHeight 2)
  else if m.staggerAxis = AxisY then
    let addon := goDiv (m.tileHeight - m.hexSideLength) 2
    imageRect 0 0 (b.limitX * m.tileWidth + goDiv m.tileWidth 2)
      (b.limitY * (m.tileHeight - addon) + addon)
  else emptyRectangle

/-- The `oddCheckValue` local of `HexagonalRendererEngine.GetTilePosition`:
1 normally, 0 when the viewport starts on an odd row/column. -/
def hexOddCheckValue (startOdd : Bool) : Int := if startOdd then 0 else 1

/-- The vertical stagger bump of `GetTilePosition` for stagger axis X: half
a tile height when the column-parity test `(x % 2) == oddCheckValue`
succeeds. -/
def hexYBumpX (m : Map) (x : Int) (startOdd : Bool) : Int :=
  if goMod x 2 = hexOddCheckValue startOdd then goDiv m.tileHeight 2 else 0

/-- The horizontal stagger bump of `GetTilePosition` for stagger axis Y:
half a tile width when the row-parity test `(y % 2) == oddCheckValue`
succeeds. -/
def hexXBumpY (m : Map) (y : Int) (startOdd : Bool) : Int :=
  if goMod y 2 = hexOddCheckValue startOdd then goDiv m.tileWidth 2 else 0

/-- `HexagonalRendererEngine.GetTilePosition` (hexagonal.go). -/
def hexGetTilePosition (m : Map) (x y : Int) (startOdd : Bool) : Rectangle :=
  if m.staggerAxis = AxisX then
    let offsetWidth := goDiv (m.tileWidth - m.hexSideLength) 2 + m.hexSideLength
    let yBump := hexYBumpX m x startOdd
    imageRect (x * offsetWidth) (y * m.tileHeight + yBump)
      (x * offsetWidth + m.tileWidth) ((y + 2) * m.tileHeight + yBump)
  else if m.staggerAxis = AxisY then
    let offsetHeight := goDiv (m.tileHeight - m.hexSideLength) 2 + m.hexSideLength
    let xBump := hexXBumpY m y startOdd
    imageRect (x * m.tileWidth + xBump) (y * offsetHeight)
      ((x + 2) * m.tileWidth + xBump) ((y + 1) * offsetHeight + m.tileHeight)
  else emptyRectangle

/-- `HexagonalRendererEngine.RotateTileImage` (hexagonal.go): horizontal
flip, then vertical flip, then — for the diagonal flag — a 90-degree
rotation composed with a horizontal flip. -/
def hexRotateTileImage (tile : LayerTile) (img : Image) : Image :=
  let timg := img
  let timg := if tile.horizontalFlip then flipH timg else timg
  let timg := if tile.verticalFlip then flipV timg else timg
  let timg := if tile.diagonalFlip then flipH (rotate90 timg) else timg
  timg

/-- The tile transform as worded by the spec, for comparison with the
source translation `hexRotateTileImage`: in fixed order, horizontal flip if
set, then vertical flip if set, then — if the diagonal flag is set — a
90-degree rotation composed with a horizontal flip. -/
def rotateTileImageSpec (tile : LayerTile) (img : Image) : Image :=
  let afterH := if tile.horizontalFlip then flipH img else img
  let afterV := if tile.verticalFlip then flipV afterH else afterH
  if tile.diagonalFlip then flipH (rotate90 afterV) else afterV

/-- Modelled from the spec: `OrthogonalRendererEngine.GetFinalImageSize`
(file orthogonal.go is not part of the sources here) — width
`limitX * tileWidth`, height `limitY * tileHeight`. -/
def orthoGetFinalImageSize (m : Map) (b : Bounds) : Rectangle :=
  imageRect 0 0 (b.limitX * m.tileWidth) (b.limitY * m.tileHeight)

/-- Modelled from the spec: `OrthogonalRendererEngine.GetTilePosition`
(file orthogonal.go is not part of the sources here) — a tile-sized
rectangle at origin `(x * tileWidth, y * tileHeight)`. -/
def orthoGetTilePosition (m : Map) (x y : Int) : Rectangle :=
  imageRect (x * m.tileWidth) (y * m.tileHeight)
    ((x + 1) * m.tileWidth) ((y + 1) * m.tileHeight)

/-- Modelled from the spec: `OrthogonalRendererEngine.RotateTileImage`
(file orthogonal.go is not part of the sources here) — the same fixed
flip order the spec gives for the geometry-engine capability. -/
def orthoRotateTileImage (tile : LayerTile) (img : Image) : Image :=
  let afterH := if tile.horizontalFlip then flipH img else img
  let afterV := if tile.verticalFlip then flipV afterH else afterH
  if tile.diagonalFlip then flipH (rotate90 afterV) else afterV

/-- The engine variant selected at renderer construction
(`RendererEngine` interface dispatch). -/
inductive EngineKind where
  | orthogonal
  | hexagonal
deriving DecidableEq

/-- `engine.GetFinalImageSize` dispatch. -/
def engineGetFinalImageSize (e : EngineKind) (m : Map) (b : Bounds) : Rectangle :=
  match e with
  | .orthogonal => orthoGetFinalImageSize m b
  | .hexagonal => hexGetFinalImageSize m b

/-- `engine.GetTilePosition` dispatch. -/
def engineGetTilePosition (e : EngineKind) (m : Map) (x y : Int) (startOdd : Bool) :
    Rectangle :=
  match e with
  | .orthogonal => orthoGetTilePosition m x y
  | .hexagonal => hexGetTilePosition m x y startOdd

/-- `engine.RotateTileImage` dispatch. -/
def engineRotateTileImage (e : EngineKind) (tile : LayerTile) (img : Image) : Image :=
  match e with
  | .orthogonal => orthoRotateTileImage tile img
  | .hexagonal => hexRotateTileImage tile img

/-- The distinguishable error kinds of the render package
(`ErrUnsupportedOrientation`, `ErrUnsupportedRenderOrder`,
`ErrOutOfBounds`), plus the propagated I/O/decode failure of tile-image
resolution. -/
inductive RenderError where
  | unsupportedOrientation
  | unsupportedRenderOrder
  | outOfBounds
  | ioError
deriving DecidableEq

/-- The renderer state: map model, selected engine, output buffer,
viewport, tile cache (an association list keyed by global tile id, first
binding wins), and the pluggable file system.  `fsOpen` models opening a
path and decoding the image behind it (`Renderer.open` followed by
`image.Decode`, both external black boxes); `none` is an open or decode
failure. -/
structure Renderer where
  m : Map
  engine : EngineKind
  result : Image
  resultBounds : Bounds
  tileCache : List (Nat × Image)
  fsOpen : String → Option Image

/-- Lookup in the tile cache (`r.tileCache[gid]`). -/
def cacheLookup : List (Nat × Image) → Nat → Option Image
  | [], _ => none
  | (k, v) :: rest, gid => if k = gid then some v else cacheLookup rest gid

/-- Store in the tile cache (`r.tileCache[gid] = img`). -/
def cacheInsert (c : List (Nat × Image)) (gid : Nat) (img : Image) :
    List (Nat × Image) :=
  (gid, img) :: c

/-- The outcome of a render-package operation: a normal return carrying the
updated renderer, a returned error carrying the renderer as left by the
call, or a Go run-time panic. -/
inductive RunResult (α : Type) where
  | ok (a : α) (r : Renderer)
  | err (e : RenderError) (r : Renderer)
  | panicked

/-- Go slice indexing `l[i]` as a partial lookup: `none` stands for the
index-out-of-range panic (negative index or index at or past the length). -/
def sliceGet {α : Type} (l : List α) (i : Int) : Option α :=
  if i < 0 then none else l[i.toNat]?

/-- `Renderer.Clear`: reallocates the output buffer to the engine's final
image size for the current bounds. -/
def Clear (r : Renderer) : Renderer :=
  { r with result := newNRGBA (engineGetFinalImageSize r.engine r.m r.resultBounds) }

/-- `NewRendererWithFileSystem`: selects the engine by orientation (other
orientations are rejected), defaults the limits to the full map size and
clears the buffer. -/
def NewRendererWithFileSystem (m : Map) (fs : String → Option Image) :
    Except RenderError Renderer :=
  let mk (e : EngineKind) : Renderer :=
    Clear
      { m := m, engine := e
        result := newNRGBA emptyRectangle
        resultBounds := { offsetX := 0, offsetY := 0, limitX := m.width, limitY := m.height }
        tileCache := [], fsOpen := fs }
  if m.orientation = "orthogonal" then .ok (mk .orthogonal)
  else if m.orientation = "hexagonal" then .ok (mk .hexagonal)
  else .error .unsupportedOrientation

/-- The client-visible viewport mutation `r.ResultBounds.SetLimit(x, y)`:
it rewrites the bounds in place and touches nothing else of the renderer
(in particular not the output buffer). -/
def rendererSetLimit (r : Renderer) (x y : Int) : Renderer :=
  { r with resultBounds := r.resultBounds.SetLimit x y }

/-- The client-visible viewport mutation `r.ResultBounds.AddOffset(x, y)`:
it rewrites the bounds in place and touches nothing else of the renderer
(in particular not the output buffer). -/
def rendererAddOffset (r : Renderer) (x y : Int) : Renderer :=
  { r with resultBounds := r.resultBounds.AddOffset x y }

/-- The per-tile-image half of `getTileImage`'s cache-population pass: the
loop `for i := 0; i < len(tile.Tileset.Tiles); i++` that opens, decodes and
caches (under `FirstGID + tile.ID`) the image of each tileset tile whose id
equals the requested tile's id, threading the `timg` local. -/
def discretePass (tile : LayerTile) :
    Renderer → List TilesetTile → Option Image → RunResult (Option Image)
  | r, [], timg => .ok timg r
  | r, t :: rest, timg =>
    if t.id = tile.id then
      match r.fsOpen (getFileFullPath tile.tileset t.imageSource) with
      | none => .err .ioError r
      | some dec =>
          discretePass tile
            { r with tileCache :=
                cacheInsert r.tileCache (gidKey tile.tileset.firstGID tile.id) dec }
            rest (some dec)
    else discretePass tile r rest timg

/-- The atlas half of `getTileImage`'s cache-population pass: the loop
`for i := uint32(0); i < uint32(tile.Tileset.TileCount); i++` that crops
the decoded atlas at each index's rectangle and caches it under
`i + FirstGID`, remembering the crop of the requested index. -/
def atlasPass (tile : LayerTile) (img : Image) :
    Renderer → List Nat → Option Image → Renderer × Option Image
  | r, [], timg => (r, timg)
  | r, i :: rest, timg =>
    let c := crop img (tile.tileset.tileRect i)
    atlasPass tile img
      { r with tileCache :=
          cacheInsert r.tileCache ((i + tile.tileset.firstGID) % (2 ^ 32)) c }
      rest (if tile.id = i then some c else timg)

/-- `Renderer.getTileImage` (the spec's `ResolveTileImage`): returns the
cached image rotated per the tile's flags, populating the cache on a miss;
the returned image is `none` exactly when the Go function would return a
nil image (no tileset tile matched the requested id). -/
def getTileImage (r : Renderer) (tile : LayerTile) : RunResult (Option Image) :=
  match cacheLookup r.tileCache (gidKey tile.tileset.firstGID tile.id) with
  | some timg => .ok (some (engineRotateTileImage r.engine tile timg)) r
  | none =>
    match tile.tileset.image with
    | none =>
      match discretePass tile r tile.tileset.tiles none with
      | .ok timg r1 => .ok (Option.map (engineRotateTileImage r1.engine tile) timg) r1
      | .err e r1 => .err e r1
      | .panicked => .panicked
    | some atlasSource =>
      match r.fsOpen (getFileFullPath tile.tileset atlasSource) with
      | none => .err .ioError r
      | some img =>
        let res := atlasPass tile img r (List.range (u32 tile.tileset.tileCount)) none
        .ok (Option.map (engineRotateTileImage res.1.engine tile) res.2) res.1

/-- The `startOdd` computation of `_renderLayer`:
`r.ResultBounds.offsetY % 2 == 1`. -/
def renderStartOdd (b : Bounds) : Bool := goMod b.offsetY 2 == 1

/-- `Renderer._renderTile`: skips nil tiles, resolves the tile image,
computes the destination rectangle and composites into the output buffer,
through an alpha mask when the layer's opacity is below one.  Indexing
`layer.Tiles[i]` out of range, or drawing a nil image, is a panic. -/
def _renderTile (r : Renderer) (layer : Layer) (i x y : Int) (startOdd : Bool) :
    RunResult Unit :=
  match sliceGet layer.tiles i with
  | none => .panicked
  | some tile =>
    if tile.isNil then .ok () r
    else
      match getTileImage r tile with
      | .err e r1 => .err e r1
      | .panicked => .panicked
      | .ok none _ => .panicked
      | .ok (some img) r1 =>
        let pos := engineGetTilePosition r1.engine r1.m x y startOdd
        if layer.opacity < 1 then
          .ok () { r1 with result := drawMask r1.result pos img (layer.opacity * 255) }
        else
          .ok () { r1 with result := drawOver r1.result pos img }

/-- The integer iteration range `[a, b)` of a Go `for` loop. -/
def intRange (a b : Int) : List Int :=
  (List.range (b - a).toNat).map (fun k => a + (k : Int))

/-- The inner `for x := xs; x < xe; x++` loop of `_renderLayer`: renders one
viewport row, passing tile index `y*width + x` and viewport-relative
coordinates. -/
def renderCols (layer : Layer) (width xs0 ys0 : Int) (startOdd : Bool) (y : Int) :
    Renderer → List Int → RunResult Unit
  | r, [] => .ok () r
  | r, x :: rest =>
    match _renderTile r layer (y * width + x) (x - xs0) (y - ys0) startOdd with
    | .ok _ r1 => renderCols layer width xs0 ys0 startOdd y r1 rest
    | .err e r1 => .err e r1
    | .panicked => .panicked

/-- The outer `for y := ys; y < ye; y++` loop of `_renderLayer`. -/
def renderRows (layer : Layer) (width xs0 ys0 : Int) (startOdd : Bool)
    (xsL : List Int) : Renderer → List Int → RunResult Unit
  | r, [] => .ok () r
  | r, y :: rest =>
    match renderCols layer width xs0 ys0 startOdd y r xsL with
    | .ok _ r1 => renderRows layer width xs0 ys0 startOdd xsL r1 rest
    | .err e r1 => .err e r1
    | .panicked => .panicked

/-- `Renderer._renderLayer`: for a supported orientation with render order
right-down, iterates the viewport clamped to the map's size; otherwise
returns the unsupported-render-order error. -/
def _renderLayer (r : Renderer) (layer : Layer) : RunResult Unit :=
  if (r.m.orientation = "hexagonal" ∨ r.m.orientation = "orthogonal")
      ∧ r.m.renderOrder = "right-down" then
    let xs := r.resultBounds.offsetX
    let xe0 := r.resultBounds.offsetX + r.resultBounds.limitX
    let xe := if r.m.width < xe0 then r.m.width else xe0
    let ys := r.resultBounds.offsetY
    let ye0 := r.resultBounds.offsetY + r.resultBounds.limitY
    let ye := if r.m.height < ye0 then r.m.height else ye0
    renderRows layer r.m.width xs ys (renderStartOdd r.resultBounds)
      (intRange xs xe) r (intRange ys ye)
  else .err .unsupportedRenderOrder r

/-- `Renderer.RenderLayer`: guards only `id >= len(layers)` before the
slice access. -/
def RenderLayer (r : Renderer) (id : Int) : RunResult Unit :=
  if (r.m.layers.length : Int) ≤ id then .err .outOfBounds r
  else
    match sliceGet r.m.layers id with
    | none => .panicked
    | some layer => _renderLayer r layer

/-- `Renderer.RenderGroupLayer`: guards only `groupID >= len(groups)` and
`layerID >= len(group.Layers)` before the slice accesses. -/
def RenderGroupLayer (r : Renderer) (groupID layerID : Int) : RunResult Unit :=
  if (r.m.groups.length : Int) ≤ groupID then .err .outOfBounds r
  else
    match sliceGet r.m.groups groupID with
    | none => .panicked
    | some group =>
      if (group.layers.length : Int) ≤ layerID then .err .outOfBounds r
      else
        match sliceGet group.layers layerID with
        | none => .panicked
        | some layer => _renderLayer r layer

/-- A concrete 1-by-1 image standing for the decoded file `a.png`. -/
def sampleImageA : Image := { width := 1, height := 1, pix := fun _ _ => 1 }

/-- A concrete 1-by-1 image standing for the decoded file `b.png`. -/
def sampleImageB : Image := { width := 1, height := 1, pix := fun _ _ => 2 }

/-- A tileset holding two per-tile discrete images (no shared atlas),
first GID 10. -/
def sampleTileset : Tileset :=
  { firstGID := 10, tileCount := 2
    tiles := [{ id := 0, imageSource := "a.png" }, { id := 1, imageSource := "b.png" }]
    image := none, baseDir := "", tileRect := fun _ => emptyRectangle }

/-- The layer tile referencing local id 0 of `sampleTileset`, no flips. -/
def sampleTile0 : LayerTile :=
  { tileset := sampleTileset, id := 0
    horizontalFlip := false, verticalFlip := false, diagonalFlip := false
    isNil := false }

/-- An empty (sentinel-nil) grid cell. -/
def nilTile : LayerTile :=
  { tileset := sampleTileset, id := 0
    horizontalFlip := false, verticalFlip := false, diagonalFlip := false
    isNil := true }

/-- A fully-opaque 2-by-2 layer of nil tiles. -/
def sampleLayer : Layer :=
  { tiles := [nilTile, nilTile, nilTile, nilTile], opacity := 1, visible := true }

/-- A concrete 2-by-2 hexagonal map, stagger axis X, tile 4 by 2 pixels,
hex side length 2, with one top-level layer and one group. -/
def sampleMap : Map :=
  { width := 2, height := 2, tileWidth := 4, tileHeight := 2, hexSideLength := 2
    orientation := "hexagonal", renderOrder := "right-down", staggerAxis := "x"
    layers := [sampleLayer], groups := [{ layers := [sampleLayer] }] }

/-- A file system resolving exactly the two discrete tile image files. -/
def sampleFS : String → Option Image := fun s =>
  if s = "a.png" then some sampleImageA
  else if s = "b.png" then some sampleImageB
  else none

/-- A renderer over `sampleMap` with the default full-map viewport and an
empty tile cache. -/
def sampleRenderer : Renderer :=
  { m := sampleMap, engine := .hexagonal
    result := newNRGBA (hexGetFinalImageSize sampleMap
      { offsetX := 0, offsetY := 0, limitX := 2, limitY := 2 })
    resultBounds := { offsetX := 0, offsetY := 0, limitX := 2, limitY := 2 }
    tileCache := [], fsOpen := sampleFS }

/-- `sampleRenderer` panned past the right edge of the map
(offsetX 5 with map width 2). -/
def edgeRenderer : Renderer :=
  { sampleRenderer with
      resultBounds := { offsetX := 5, offsetY := 0, limitX := 2, limitY := 2 } }

/-- A viewport starting on an odd map row: offset (0, 1). -/
def oddRowBounds : Bounds := { offsetX := 0, offsetY := 1, limitX := 2, limitY := 2 }

/-! Helper lemmas shared by the claim theorems. -/

theorem intRange_nil (a b : Int) (h : b ≤ a) : intRange a b = [] := by
  unfold intRange
  have : (b - a).toNat = 0 := by omega
  rw [this]
  rfl

theorem renderRows_no_cols (layer : Layer) (width xs0 ys0 : Int) (so : Bool)
    (r : Renderer) (ysL : List Int) :
    renderRows layer width xs0 ys0 so [] r ysL = .ok () r := by
  induction ysL with
  | nil => rfl
  | cons y rest ih =>
    show renderRows layer width xs0 ys0 so [] r (y :: rest) = .ok () r
    rw [renderRows]
    exact ih

/-- On a `some` result, Go slice indexing is within bounds. -/
theorem sliceGet_isSome_bounds {α : Type} (l : List α) (i : Int) (a : α)
    (h : sliceGet l i = some a) : 0 ≤ i ∧ i < (l.length : Int) := by
  unfold sliceGet at h
  by_cases hneg : i < 0
  · rw [if_pos hneg] at h
    exact absurd h (by simp)
  · rw [if_neg hneg] at h
    have hlt : i.toNat < l.length := by
      by_contra hge
      rw [List.getElem?_eq_none (by omega)] at h
      exact absurd h (by simp)
    omega

theorem sliceGet_of_lt {α : Type} (l : List α) (i : Int)
    (h0 : 0 ≤ i) (hlt : i < (l.length : Int)) :
    ∃ a, sliceGet l i = some a := by
  refine ⟨l.get ⟨i.toNat, by omega⟩, ?_⟩
  unfold sliceGet
  rw [if_neg (by omega)]
  simp [List.getElem?_eq_getElem (by omega : i.toNat < l.length)]

/-- C7: for every bounds state and every pair (x, y), `SetLimit x y`
updates `limitX` to `x` only when `x ≥ 1` and `limitY` to `y` only when
`y ≥ 1`, each axis independently; a non-positive request on an axis
preserves that axis's previous limit (and the offsets are untouched). -/
theorem setLimit_per_axis (b : Bounds) (x y : Int) :
    (1 ≤ x → (b.SetLimit x y).limitX = x)
    ∧ (x < 1 → (b.SetLimit x y).limitX = b.limitX)
    ∧ (1 ≤ y → (b.SetLimit x y).limitY = y)
    ∧ (y < 1 → (b.SetLimit x y).limitY = b.limitY)
    ∧ (b.SetLimit x y).offsetX = b.offsetX
    ∧ (b.SetLimit x y).offsetY = b.offsetY := by
  unfold Bounds.SetLimit
  refine ⟨fun hx => ?_, fun hx => ?_, fun hy => ?_, fun hy => ?_, ?_, ?_⟩ <;>
    split_ifs <;> simp_all <;> omega

/-- C7 witness: `SetLimit 3 0` from limits (5, 6) updates the x limit and
preserves the y limit. -/
theorem setLimit_per_axis_witness :
    ((Bounds.mk 0 0 5 6).SetLimit 3 0).limitX = 3
    ∧ ((Bounds.mk 0 0 5 6).SetLimit 3 0).limitY = 6 :=
  ⟨(setLimit_per_axis (Bounds.mk 0 0 5 6) 3 0).1 (by decide),
   (setLimit_per_axis (Bounds.mk 0 0 5 6) 3 0).2.2.2.1 (by decide)⟩

/-- C8: `AddOffset x y` adds to the current offsets and clamps each result
to be non-negative, so offsets are never negative after the mutation;
without clamping the offsets accumulate, `AddOffset (-100) (-100)` from
offset (0, 0) yields offset (0, 0), and the limits are untouched. -/
theorem addOffset_clamps_and_accumulates (b : Bounds) (x y : Int) :
    0 ≤ (b.AddOffset x y).offsetX
    ∧ 0 ≤ (b.AddOffset x y).offsetY
    ∧ (0 ≤ b.offsetX + x → (b.AddOffset x y).offsetX = b.offsetX + x)
    ∧ (0 ≤ b.offsetY + y → (b.AddOffset x y).offsetY = b.offsetY + y)
    ∧ ((Bounds.mk 0 0 b.limitX b.limitY).AddOffset (-100) (-100)).offsetX = 0
    ∧ ((Bounds.mk 0 0 b.limitX b.limitY).AddOffset (-100) (-100)).offsetY = 0
    ∧ (b.AddOffset x y).limitX = b.limitX
    ∧ (b.AddOffset x y).limitY = b.limitY := by
  simp only [Bounds.AddOffset]
  refine ⟨?_, ?_, fun hx => ?_, fun hy => ?_, ?_, ?_, ?_, ?_⟩ <;>
    first
      | trivial
      | (split_ifs <;> omega)

/-- C8 witness: from offset (2, 3), `AddOffset (-1) (-5)` accumulates on x
and clamps y to zero. -/
theorem addOffset_clamps_and_accumulates_witness :
    ((Bounds.mk 2 3 1 1).AddOffset (-1) (-5)).offsetX = 2 + (-1)
    ∧ 0 ≤ ((Bounds.mk 2 3 1 1).AddOffset (-1) (-5)).offsetY :=
  ⟨(addOffset_clamps_and_accumulates (Bounds.mk 2 3 1 1) (-1) (-5)).2.2.1 (by decide),
   (addOffset_clamps_and_accumulates (Bounds.mk 2 3 1 1) (-1) (-5)).2.1⟩

/-- C5: `RotateTileImage` applies, in fixed order, horizontal flip if set,
then vertical flip if set, then — if the diagonal flag is set — a
90-degree rotation followed by a horizontal flip; with all flags false the
input image is returned unchanged, and with only the diagonal flag set the
result is the source rotated 90 degrees then mirrored horizontally (its
pixel dimensions swap). -/
theorem rotateTileImage_fixed_order (ts : Tileset) (id : Nat) (nl : Bool)
    (img : Image) (tile : LayerTile) :
    hexRotateTileImage tile img = rotateTileImageSpec tile img
    ∧ hexRotateTileImage (LayerTile.mk ts id false false false nl) img = img
    ∧ hexRotateTileImage (LayerTile.mk ts id false false true nl) img
        = flipH (rotate90 img)
    ∧ (hexRotateTileImage (LayerTile.mk ts id false false true nl) img).width
        = img.height
    ∧ (hexRotateTileImage (LayerTile.mk ts id false false true nl) img).height
        = img.width :=
  ⟨rfl, rfl, rfl, rfl, rfl⟩

/-- C3 counterexample: mutating the bounds through `SetLimit` does not
reallocate the output buffer — after `SetLimit 3 3` on `sampleRenderer`
the buffer's width (7, from the old limits) differs from the width of the
engine's final image size for the new bounds (10). -/
theorem setLimit_leaves_stale_buffer :
    ((rendererSetLimit sampleRenderer 3 3).result).width
      ≠ (engineGetFinalImageSize (rendererSetLimit sampleRenderer 3 3).engine
          (rendererSetLimit sampleRenderer 3 3).m
          (rendererSetLimit sampleRenderer 3 3).resultBounds).dx := by
  decide

/-- C3 amended: bounds mutations (`SetLimit`, `AddOffset`) leave the output
buffer untouched; only `Clear` reallocates it, to the engine's final image
size of the current bounds, and the fresh buffer replaces (does not merge
with) the previous pixel content. -/
theorem buffer_reallocated_only_by_clear (r : Renderer) (x y : Int) (img : Image) :
    (rendererSetLimit r x y).result = r.result
    ∧ (rendererAddOffset r x y).result = r.result
    ∧ (Clear r).result
        = newNRGBA (engineGetFinalImageSize r.engine r.m r.resultBounds)
    ∧ Clear { r with result := img } = Clear r
    ∧ (Clear r).resultBounds = r.resultBounds :=
  ⟨rfl, rfl, rfl, rfl, rfl⟩

/-- C4: for every hexagonal map, `GetFinalImageSize` returns, for stagger
axis X with `addon = (tileWidth - hexSideLength) / 2`, a rectangle of width
`limitX*(tileWidth-addon)+addon` and height `limitY*tileHeight +
tileHeight/2`; for stagger axis Y with `addon = (tileHeight -
hexSideLength) / 2`, width `limitX*tileWidth + tileWidth/2` and height
`limitY*(tileHeight-addon)+addon`; and for any other stagger axis the
empty rectangle. -/
theorem hexFinalImageSize_formula (m : Map) (b : Bounds) :
    (m.staggerAxis = AxisX →
      hexGetFinalImageSize m b =
        imageRect 0 0
          (b.limitX * (m.tileWidth - goDiv (m.tileWidth - m.hexSideLength) 2)
            + goDiv (m.tileWidth - m.hexSideLength) 2)
          (b.limitY * m.tileHeight + goDiv m.tileHeight 2))
    ∧ (m.staggerAxis = AxisY →
      hexGetFinalImageSize m b =
        imageRect 0 0
          (b.limitX * m.tileWidth + goDiv m.tileWidth 2)
          (b.limitY * (m.tileHeight - goDiv (m.tileHeight - m.hexSideLength) 2)
            + goDiv (m.tileHeight - m.hexSideLength) 2))
    ∧ (m.staggerAxis ≠ AxisX → m.staggerAxis ≠ AxisY →
      hexGetFinalImageSize m b = emptyRectangle) := by
  unfold hexGetFinalImageSize
  refine ⟨fun h => ?_, fun h => ?_, fun h1 h2 => ?_⟩
  · rw [if_pos h]
  · rw [if_neg (by rw [h]; decide), if_pos h]
  · rw [if_neg h1, if_neg h2]

/-- C4 witness: `sampleMap` (stagger axis X, tile 4 by 2, hex side 2) with
limits (2, 2) yields the 7-by-5 rectangle. -/
theorem hexFinalImageSize_formula_witness :
    hexGetFinalImageSize sampleMap (Bounds.mk 0 0 2 2) = imageRect 0 0 7 5 :=
  ((hexFinalImageSize_formula sampleMap (Bounds.mk 0 0 2 2)).1 rfl).trans (by decide)

theorem tmod_two_eq_emod (a : Int) (h : 0 ≤ a) : Int.tmod a 2 = a % 2 :=
  Int.tmod_eq_emod h (by omega)

/-- C1 (code-bug evidence): on a cache miss over a tileset of per-tile
discrete images, `getTileImage` does not populate the cache for the whole
tileset — for `sampleTileset` (tiles 0 and 1, first GID 10) requesting tile
0 caches only key 10; key 11 (tile 1) is neither opened nor cached, despite
the source's own comment that the loop precaches all tiles in the
tileset. -/
theorem getTileImage_discrete_caches_only_requested :
    getTileImage sampleRenderer sampleTile0
      = .ok (some sampleImageA)
          { sampleRenderer with tileCache := [(10, sampleImageA)] }
    ∧ cacheLookup [(10, sampleImageA)] (gidKey sampleTileset.firstGID 1) = none :=
  ⟨rfl, rfl⟩

/-- C9: a negative layer or group index is not reported as out of bounds:
it passes the `>= len` guard and reaches the slice access, a run-time
panic. -/
theorem negative_layer_index_panics :
    RenderLayer sampleRenderer (-1) = .panicked
    ∧ RenderGroupLayer sampleRenderer (-1) 0 = .panicked
    ∧ RenderGroupLayer sampleRenderer 0 (-1) = .panicked
    ∧ (RunResult.panicked : RunResult Unit)
        ≠ .err .outOfBounds sampleRenderer := by
  refine ⟨rfl, rfl, rfl, fun h => ?_⟩
  exact RunResult.noConfusion h

/-- C6: an index at or past the length — a top-level layer index for
`RenderLayer`, a group index, or a layer index within an in-range group for
`RenderGroupLayer` — yields the out-of-bounds error with the renderer
state (in particular the output buffer) unchanged. -/
theorem out_of_range_indices_error (r : Renderer) (id gid lid : Int) :
    ((r.m.layers.length : Int) ≤ id →
      RenderLayer r id = .err .outOfBounds r)
    ∧ ((r.m.groups.length : Int) ≤ gid →
      RenderGroupLayer r gid lid = .err .outOfBounds r)
    ∧ (∀ g, sliceGet r.m.groups gid = some g → (g.layers.length : Int) ≤ lid →
      RenderGroupLayer r gid lid = .err .outOfBounds r) := by
  refine ⟨fun h => ?_, fun h => ?_, fun g hg hl => ?_⟩
  · unfold RenderLayer
    rw [if_pos h]
  · unfold RenderGroupLayer
    rw [if_pos h]
  · have hb := sliceGet_isSome_bounds _ _ _ hg
    unfold RenderGroupLayer
    rw [if_neg (by omega), hg]
    dsimp only
    rw [if_pos hl]

/-- C6 witness: index 5 of the single top-level layer, group index 7, and
layer index 9 inside group 0 all return the out-of-bounds error leaving
the renderer untouched. -/
theorem out_of_range_indices_error_witness :
    RenderLayer sampleRenderer 5 = .err .outOfBounds sampleRenderer
    ∧ RenderGroupLayer sampleRenderer 7 0 = .err .outOfBounds sampleRenderer
    ∧ RenderGroupLayer sampleRenderer 0 9 = .err .outOfBounds sampleRenderer :=
  ⟨(out_of_range_indices_error sampleRenderer 5 7 0).1 (by decide),
   (out_of_range_indices_error sampleRenderer 5 7 0).2.1 (by decide),
   (out_of_range_indices_error sampleRenderer 0 0 9).2.2
     { layers := [sampleLayer] } rfl (by decide)⟩

/-- C2 counterexample: for stagger axis X the stagger bump is not anchored
to the map's column — with viewport offset (0, 1) (`startOdd` true) the
bump chosen for absolute column 0 (viewport-relative 0) is half a tile
height, while a viewport at offset (0, 0) chooses no bump for the same
column. -/
theorem hexStaggerX_parity_not_anchored :
    hexYBumpX sampleMap (0 - oddRowBounds.offsetX) (renderStartOdd oddRowBounds)
      ≠ hexYBumpX sampleMap 0 false := by
  decide

/-- C2 amended: with `startOdd` computed from the y offset as
`offsetY % 2 == 1`, the stagger bump chosen for a viewport-relative
coordinate equals the bump a viewport at offset (0, 0) would choose for the
same absolute map row for stagger axis Y; for stagger axis X the same
anchoring holds only when the x and y offsets have equal parity. -/
theorem hexStagger_parity_anchoring (m : Map) (b : Bounds) (ax ay : Int)
    (hoy : 0 ≤ b.offsetY) :
    (b.offsetY ≤ ay →
      hexXBumpY m (ay - b.offsetY) (renderStartOdd b) = hexXBumpY m ay false)
    ∧ (0 ≤ b.offsetX → b.offsetX ≤ ax → goMod b.offsetX 2 = goMod b.offsetY 2 →
      hexYBumpX m (ax - b.offsetX) (renderStartOdd b) = hexYBumpX m ax false) := by
  constructor
  · intro hay
    have e1 : goMod (ay - b.offsetY) 2 = (ay - b.offsetY) % 2 :=
      tmod_two_eq_emod _ (by omega)
    have e2 : goMod ay 2 = ay % 2 := tmod_two_eq_emod _ (by omega)
    have e3 : goMod b.offsetY 2 = b.offsetY % 2 := tmod_two_eq_emod _ hoy
    unfold hexXBumpY hexOddCheckValue renderStartOdd
    rw [e1, e2, e3]
    simp only [beq_iff_eq, Bool.false_eq_true, if_false]
    by_cases hso : b.offsetY % 2 = 1
    · simp only [if_pos hso]
      split_ifs <;> omega
    · simp only [if_neg hso]
      split_ifs <;> omega
  · intro hox hax hpar
    have e1 : goMod (ax - b.offsetX) 2 = (ax - b.offsetX) % 2 :=
      tmod_two_eq_emod _ (by omega)
    have e2 : goMod ax 2 = ax % 2 := tmod_two_eq_emod _ (by omega)
    have e3 : goMod b.offsetY 2 = b.offsetY % 2 := tmod_two_eq_emod _ hoy
    have e4 : goMod b.offsetX 2 = b.offsetX % 2 := tmod_two_eq_emod _ hox
    rw [e3, e4] at hpar
    unfold hexYBumpX hexOddCheckValue renderStartOdd
    rw [e1, e2, e3]
    simp only [beq_iff_eq, Bool.false_eq_true, if_false]
    by_cases hso : b.offsetY % 2 = 1
    · simp only [if_pos hso]
      split_ifs <;> omega
    · simp only [if_neg hso]
      split_ifs <;> omega

/-- C2 witness: on `sampleMap` with viewport offset (0, 1), the stagger-Y
bump for absolute row 3 (viewport-relative row 2) matches the offset-(0, 0)
choice. -/
theorem hexStagger_parity_anchoring_witness :
    hexXBumpY sampleMap (3 - oddRowBounds.offsetY) (renderStartOdd oddRowBounds)
      = hexXBumpY sampleMap 3 false :=
  (hexStagger_parity_anchoring sampleMap oddRowBounds 0 3 (by decide)).1 (by decide)

/-- C10: for a supported orientation with render order right-down and a
viewport offset at or beyond the map edge, rendering an existing layer
succeeds with no error and leaves the renderer (in particular the output
buffer) unchanged: the clamped iteration range is empty. -/
theorem renderLayer_offscreen_noop (r : Renderer) (id : Int)
    (hor : r.m.orientation = "hexagonal" ∨ r.m.orientation = "orthogonal")
    (hro : r.m.renderOrder = "right-down")
    (h0 : 0 ≤ id) (hlt : id < (r.m.layers.length : Int))
    (hoff : r.m.width ≤ r.resultBounds.offsetX
      ∨ r.m.height ≤ r.resultBounds.offsetY) :
    RenderLayer r id = .ok () r := by
  obtain ⟨layer, hl⟩ := sliceGet_of_lt r.m.layers id h0 hlt
  unfold RenderLayer
  rw [if_neg (by omega), hl]
  dsimp only
  unfold _renderLayer
  rw [if_pos ⟨hor, hro⟩]
  dsimp only
  rcases hoff with hx | hy
  · have hxe : intRange r.resultBounds.offsetX
        (if r.m.width < r.resultBounds.offsetX + r.resultBounds.limitX
          then r.m.width else r.resultBounds.offsetX + r.resultBounds.limitX)
        = [] := by
      apply intRange_nil
      split <;> omega
    rw [hxe]
    exact renderRows_no_cols _ _ _ _ _ _ _
  · have hye : intRange r.resultBounds.offsetY
        (if r.m.height < r.resultBounds.offsetY + r.resultBounds.limitY
          then r.m.height else r.resultBounds.offsetY + r.resultBounds.limitY)
        = [] := by
      apply intRange_nil
      split <;> omega
    rw [hye]
    rfl

/-- C10 witness: `edgeRenderer` (offsetX 5 on the 2-wide `sampleMap`)
renders layer 0 with no error and an unchanged renderer. -/
theorem renderLayer_offscreen_noop_witness :
    RenderLayer edgeRenderer 0 = .ok () edgeRenderer :=
  renderLayer_offscreen_noop edgeRenderer 0 (Or.inl rfl) rfl (by decide)
    (by decide) (Or.inl (by decide))

end TiledRender
